import Mathlib

/-!
Shallow embedding of the user-microservice repository
(src/src/user/services/user.service.ts and the auth controller in
src/unnamed/part_000), together with proofs of the specification claims.

The service is CRUD over a single `User` document collection (mongoose).
Mongoose documents, the store and the user schema's password helpers are
modelled explicitly; errors thrown by the TypeScript code become `Except`
values carrying the exact message strings of the source.
-/

namespace UserMicroservice

/-- Results and errors are compared on concrete inputs, so `Except` values
need decidable equality. -/
instance {e a : Type} [DecidableEq e] [DecidableEq a] : DecidableEq (Except e a) :=
  fun x y =>
    match x, y with
    | .ok v, .ok w =>
      if h : v = w then .isTrue (by rw [h]) else .isFalse (by intro hc; injection hc; contradiction)
    | .error v, .error w =>
      if h : v = w then .isTrue (by rw [h]) else .isFalse (by intro hc; injection hc; contradiction)
    | .ok _, .error _ => .isFalse (by intro hc; injection hc)
    | .error _, .ok _ => .isFalse (by intro hc; injection hc)

/-- A stored password slot.  `hashed s` stands for the salted bcrypt hash of
the plaintext `s`; `plain s` stands for the raw string `s` itself, not yet
hashed.  The tag records which of the two a field currently holds. -/
inductive Stored where
  | hashed (s : String)
  | plain (s : String)
  deriving DecidableEq, Repr

/-- Whether a stored password value is a hash (and not plaintext). -/
def Stored.isHashed : Stored → Bool
  | .hashed _ => true
  | .plain _ => false

/-- The persisted user record (mongoose `User` document). -/
structure Account where
  id : Nat
  username : String
  firstName : String
  lastName : String
  password : Stored
  deriving DecidableEq, Repr

/-- Modelled from the spec: the user schema (src/schemas/user.schema.ts is not
under src/) exposes `comparePassword`, a bcrypt comparison of a candidate
plaintext against the stored hash.  bcrypt compare succeeds exactly when the
stored value is the hash of the candidate; against a non-hash value it
reports no match. -/
def comparePassword (u : Account) (candidate : String) : Bool :=
  match u.password with
  | .hashed s => candidate == s
  | .plain _ => false

/-- Body of POST /auth/new and of `UserService.create`. -/
structure CreateDto where
  username : String
  password : String
  firstName : String
  lastName : String
  deriving DecidableEq, Repr

/-- Body of POST /auth and of `UserService.verify`. -/
structure AuthorizeDto where
  username : String
  password : String
  deriving DecidableEq, Repr

/-- Body of `UserService.updateProfile`. -/
structure UpdateProfileDto where
  username : String
  firstName : String
  lastName : String
  deriving DecidableEq, Repr

/-- Body of `UserService.changePassword`. -/
structure ChangePasswordDto where
  password : String
  newPassword : String
  deriving DecidableEq, Repr

/-- `ExistingUserResult` from user.service.ts. -/
structure ExistingUserResult where
  existing : Bool
  deriving DecidableEq, Repr

/-- `UpdateUserResult` from user.service.ts. -/
structure UpdateUserResult where
  updated : Bool
  deriving DecidableEq, Repr

/-- The document store state: the user collection, the identifier the store
will assign to the next inserted document, and a counter of persistent
writes (each executed `save` increments it; it lets "issues no write" be
stated directly). -/
structure DB where
  accounts : List Account
  nextId : Nat
  writes : Nat
  deriving DecidableEq, Repr

/-- Modelled from the spec: the user schema's pre-save hook (schema file not
under src/) replaces a modified plaintext password with its salted hash
before the document is written; an already-hashed value is left alone. -/
def hashHook : Stored → Stored
  | .plain s => .hashed s
  | .hashed s => .hashed s

/-- `document.save()` on a loaded document: the pre-save hook runs, then the
document replaces the stored one with the same identifier, and one
persistent write is issued. -/
def saveUser (db : DB) (u : Account) : DB :=
  { db with
      accounts := db.accounts.map (fun a =>
        if a.id == u.id then { u with password := hashHook u.password } else a)
      writes := db.writes + 1 }

/-- Errors the underlying store can raise on an insert.  The model produces
only `duplicateKey` (the uniqueness constraint); `otherFailure` stands for
any other cause (validation, connection, ...) and exists so that the blanket
`catch` of `UserService.create` can be stated over every failure cause. -/
inductive StoreErr where
  | duplicateKey
  | otherFailure (msg : String)
  deriving DecidableEq, Repr

/-- Modelled from the spec: `new this.userModel(dto)` followed by `.save()`.
The store enforces username uniqueness (unique index declared in the schema
file, not under src/): an insert colliding with an existing username fails
with a duplicate-key error and changes nothing; otherwise the schema's
pre-save hook hashes the plaintext password and the document is appended. -/
def saveNew (db : DB) (dto : CreateDto) : Except StoreErr (Account × DB) :=
  if db.accounts.any (fun u => u.username == dto.username) then
    .error .duplicateKey
  else
    let u : Account :=
      { id := db.nextId
        username := dto.username
        firstName := dto.firstName
        lastName := dto.lastName
        password := hashHook (.plain dto.password) }
    .ok (u, { accounts := db.accounts ++ [u], nextId := db.nextId + 1,
              writes := db.writes + 1 })

/-- The `catch` block of `UserService.create` (user.service.ts lines 69-83):
whatever error the save raised is replaced by `"User already exists."`; a
successful save returns the new user.  On failure the store is as it was. -/
def createCatch (db : DB) (attempt : Except StoreErr (Account × DB)) :
    Except String Account × DB :=
  match attempt with
  | .ok (u, db2) => (.ok u, db2)
  | .error _ => (.error "User already exists.", db)

/-- `UserService.create` (user.service.ts lines 69-83). -/
def create (db : DB) (dto : CreateDto) : Except String Account × DB :=
  createCatch db (saveNew db dto)

/-- `UserService.findByUserId` (user.service.ts lines 48-62): `findById`
then throw `"User does not exist."` on a missing document. -/
def findByUserId (db : DB) (id : Nat) : Except String Account :=
  match db.accounts.find? (fun u => u.id == id) with
  | none => .error "User does not exist."
  | some u => .ok u

/-- `UserService.verify` (user.service.ts lines 91-116).
`find({username}).limit(1)` returns the first document whose username
matches exactly, embedded as `List.find?`; an empty result throws
`"User not found."`, a failed password comparison throws
`"Incorrect password."`.  No save is executed on any path. -/
def verify (db : DB) (dto : AuthorizeDto) : Except String Account × DB :=
  match db.accounts.find? (fun u => u.username == dto.username) with
  | none => (.error "User not found.", db)
  | some user =>
    if comparePassword user dto.password = false then
      (.error "Incorrect password.", db)
    else
      (.ok user, db)

/-- `UserService.updateProfile` (user.service.ts lines 125-151).  The three
profile fields are assigned unconditionally; `user.isModified()` is
mongoose's modification tracking, which marks a path modified only when the
assigned value is not deep-equal to the value it replaces (`Document.$set`
compares with `deepEqual` before calling `markModified`), so on a freshly
loaded document it reduces to comparing the three assigned values with the
loaded snapshot.  The document is saved only when modified. -/
def updateProfile (db : DB) (id : Nat) (dto : UpdateProfileDto) :
    Except String UpdateUserResult × DB :=
  match findByUserId db id with
  | .error e => (.error e, db)
  | .ok user =>
    let user1 : Account :=
      { user with
          username := dto.username
          firstName := dto.firstName
          lastName := dto.lastName }
    let updated : Bool :=
      user1.username != user.username ||
      user1.firstName != user.firstName ||
      user1.lastName != user.lastName
    if updated then (.ok ⟨true⟩, saveUser db user1)
    else (.ok ⟨false⟩, db)

/-- `UserService.checkIfExists` (user.service.ts lines 159-176):
`find({username}).limit(1)`, result `existing := users.length > 0`; no
error path and no write. -/
def checkIfExists (db : DB) (username : String) :
    Except String ExistingUserResult × DB :=
  ((.ok ⟨(db.accounts.find? (fun u => u.username == username)).isSome⟩ :
      Except String ExistingUserResult), db)

/-- `UserService.changePassword` (user.service.ts lines 186-210): load,
compare the provided password, throw `"Incorrect password."` on mismatch;
otherwise assign the new plaintext to the password field and save
unconditionally (the pre-save hook hashes it), returning `updated = true`. -/
def changePassword (db : DB) (id : Nat) (dto : ChangePasswordDto) :
    Except String UpdateUserResult × DB :=
  match findByUserId db id with
  | .error e => (.error e, db)
  | .ok user =>
    if comparePassword user dto.password = false then
      (.error "Incorrect password.", db)
    else
      (.ok ⟨true⟩, saveUser db { user with password := .plain dto.newPassword })

/-- Modelled from the spec: the token issued by the external Auth
collaborator (`createToken(account) -> TokenResult`); its contents are
irrelevant to the claims. -/
structure AuthTokenResult where
  token : String
  deriving DecidableEq, Repr

/-- The serialized body of a NestJS `BadRequestException(msg)`: HTTP status
400, the fixed error class `"Bad Request"`, and the message text. -/
structure HttpErrorResponse where
  statusCode : Nat
  error : String
  message : String
  deriving DecidableEq, Repr

/-- `AuthContoller.authorize` (src/unnamed/part_000 lines 52-65): verify the
user, mint a token on success; any thrown error is caught and re-surfaced
as `BadRequestException(err.message)`.  `createToken` is the external Auth
collaborator. -/
def authorize (createToken : Account → AuthTokenResult) (db : DB)
    (dto : AuthorizeDto) : Except HttpErrorResponse AuthTokenResult :=
  match (verify db dto).1 with
  | .error msg => .error ⟨400, "Bad Request", msg⟩
  | .ok user => .ok (createToken user)

/-- The operations in scope for the at-rest invariant (spec §3): create,
updateProfile, changePassword, each with its request payload. -/
inductive Op where
  | createOp (dto : CreateDto)
  | updateOp (id : Nat) (dto : UpdateProfileDto)
  | passwordOp (id : Nat) (dto : ChangePasswordDto)

/-- The store state an operation leaves behind. -/
def step (db : DB) : Op → DB
  | .createOp dto => (create db dto).2
  | .updateOp id dto => (updateProfile db id dto).2
  | .passwordOp id dto => (changePassword db id dto).2

/-- The empty store the service starts from. -/
def initDB : DB := ⟨[], 1, 0⟩

/-- The store state reached by running a sequence of in-scope operations
from the empty store. -/
def run (ops : List Op) : DB := ops.foldl step initDB

/-- Every account in the store holds a hashed password, never plaintext. -/
def allHashed (db : DB) : Prop :=
  ∀ a ∈ db.accounts, a.password.isHashed = true

/-- A concrete one-account store used by witnesses and counterexamples. -/
def db1 : DB := ⟨[⟨1, "alice", "Alice", "Liddell", .hashed "pw"⟩], 2, 0⟩

/-- A concrete token mint for witnesses and counterexamples. -/
def tok0 : Account → AuthTokenResult := fun _ => ⟨"token"⟩

/-! ## Helper lemmas -/

/-- A dirty-check that finds no difference: `updateProfile` returns
`updated = false` and the store is untouched. -/
theorem updateProfile_clean (db : DB) (id : Nat) (dto : UpdateProfileDto)
    (user : Account)
    (hf : db.accounts.find? (fun u => u.id == id) = some user)
    (h1 : dto.username = user.username)
    (h2 : dto.firstName = user.firstName)
    (h3 : dto.lastName = user.lastName) :
    updateProfile db id dto = (.ok ⟨false⟩, db) := by
  simp [updateProfile, findByUserId, hf, h1, h2, h3]

/-- A dirty-check that finds a difference: `updateProfile` saves the updated
document and returns `updated = true`. -/
theorem updateProfile_dirty (db : DB) (id : Nat) (dto : UpdateProfileDto)
    (user : Account)
    (hf : db.accounts.find? (fun u => u.id == id) = some user)
    (h : ¬(dto.username = user.username ∧ dto.firstName = user.firstName ∧
        dto.lastName = user.lastName)) :
    updateProfile db id dto =
      (.ok ⟨true⟩, saveUser db
        { user with
            username := dto.username
            firstName := dto.firstName
            lastName := dto.lastName }) := by
  have hb : (dto.username != user.username || dto.firstName != user.firstName ||
      dto.lastName != user.lastName) = true := by
    rcases not_and_or.mp h with h' | h'
    · simp [bne_iff_ne, h']
    · rcases not_and_or.mp h' with h'' | h'' <;> simp [bne_iff_ne, h'']
  simp [updateProfile, findByUserId, hf, hb]

/-- Replacing, in a list, the account found under an identifier by another
account carrying the same identifier makes the lookup return the
replacement. -/
theorem find?_map_update (l : List Account) (i : Nat) (user u1 : Account)
    (hid : u1.id = user.id)
    (hf : l.find? (fun a => a.id == i) = some user) :
    (l.map (fun a => if a.id == user.id then u1 else a)).find?
      (fun a => a.id == i) = some u1 := by
  have hui : (user.id == i) = true := by simpa using List.find?_some hf
  induction l with
  | nil => simp at hf
  | cons a t ih =>
    rw [List.map_cons]
    cases hp : (a.id == i) with
    | true =>
      simp only [List.find?_cons, hp, Option.some.injEq] at hf
      subst hf
      rw [if_pos (beq_self_eq_true a.id)]
      have hu1 : (u1.id == i) = true := by rw [hid]; exact hp
      simp only [List.find?_cons, hu1]
    | false =>
      simp only [List.find?_cons, hp] at hf
      have hne : (a.id == user.id) = false := by
        cases hx : (a.id == user.id) with
        | false => rfl
        | true =>
          have hax : a.id = user.id := beq_iff_eq.mp hx
          rw [hax, hui] at hp
          exact absurd hp (by decide)
      rw [if_neg (by simp only [hne]; decide)]
      simp only [List.find?_cons, hp]
      exact ih hf

/-- Looking up the saved document by the identifier it was found under
returns the saved version (with the pre-save hook applied). -/
theorem find?_saveUser (db : DB) (i : Nat) (user u : Account)
    (hf : db.accounts.find? (fun a => a.id == i) = some user)
    (hid : u.id = user.id) :
    (saveUser db u).accounts.find? (fun a => a.id == i) =
      some { u with password := hashHook u.password } := by
  have h0 : (saveUser db u).accounts = db.accounts.map (fun a =>
      if a.id == u.id then { u with password := hashHook u.password } else a) := rfl
  rw [h0]
  simp only [hid]
  exact find?_map_update db.accounts i user _ rfl hf

/-- The pre-save hook always yields a hashed value. -/
theorem isHashed_hashHook (s : Stored) : (hashHook s).isHashed = true := by
  cases s <;> rfl

/-- Saving any document keeps every stored password hashed. -/
theorem allHashed_saveUser (db : DB) (u : Account) (h : allHashed db) :
    allHashed (saveUser db u) := by
  intro a ha
  simp only [saveUser, List.mem_map] at ha
  obtain ⟨b, hb, hba⟩ := ha
  by_cases hid : (b.id == u.id) = true
  · rw [← hba, if_pos hid]
    exact isHashed_hashHook u.password
  · rw [← hba, if_neg (by simp at hid ⊢; exact hid)]
    exact h b hb

/-- `create` keeps every stored password hashed. -/
theorem allHashed_create (db : DB) (dto : CreateDto) (h : allHashed db) :
    allHashed (create db dto).2 := by
  unfold create createCatch saveNew
  by_cases hc : db.accounts.any (fun u => u.username == dto.username) = true
  · simpa [hc] using h
  · simp only [hc, Bool.false_eq_true, if_neg, ite_false]
    intro a ha
    simp only [List.mem_append, List.mem_singleton] at ha
    rcases ha with h' | h'
    · exact h a h'
    · subst h'
      exact isHashed_hashHook (.plain dto.password)


/-- `updateProfile` keeps every stored password hashed. -/
theorem allHashed_updateProfile (db : DB) (id : Nat) (dto : UpdateProfileDto)
    (h : allHashed db) : allHashed (updateProfile db id dto).2 := by
  unfold updateProfile
  cases hfe : findByUserId db id with
  | error e => exact h
  | ok user =>
    by_cases hb : (dto.username != user.username ||
        dto.firstName != user.firstName || dto.lastName != user.lastName) = true
    · simpa [hb] using allHashed_saveUser db _ h
    · simpa [hb] using h

/-- `changePassword` keeps every stored password hashed. -/
theorem allHashed_changePassword (db : DB) (id : Nat) (dto : ChangePasswordDto)
    (h : allHashed db) : allHashed (changePassword db id dto).2 := by
  unfold changePassword
  cases hfe : findByUserId db id with
  | error e => exact h
  | ok user =>
    by_cases hc : comparePassword user dto.password = false
    · simpa [hc] using h
    · simpa [hc] using allHashed_saveUser db _ h

/-- Every in-scope operation keeps every stored password hashed. -/
theorem allHashed_step (db : DB) (op : Op) (h : allHashed db) :
    allHashed (step db op) := by
  cases op with
  | createOp dto => exact allHashed_create db dto h
  | updateOp id dto => exact allHashed_updateProfile db id dto h
  | passwordOp id dto => exact allHashed_changePassword db id dto h

/-- Running operations from a store with hashed passwords keeps them hashed. -/
theorem allHashed_foldl (ops : List Op) (db : DB) (h : allHashed db) :
    allHashed (ops.foldl step db) := by
  induction ops generalizing db with
  | nil => exact h
  | cons op t ih => exact ih _ (allHashed_step db op h)

/-! ## Claims -/

/-- C1, as stated, is false: the two failure cases of `verify` are not
externally indistinguishable.  On the concrete store `db1`, an unknown
username and a known username with a wrong password both reach the HTTP
boundary as 400 responses, but with different message texts, so the two
responses differ. -/
theorem C1_counterexample :
    db1.accounts.find? (fun a => a.username == "bob") = none ∧
    db1.accounts.find? (fun a => a.username == "alice") =
      some ⟨1, "alice", "Alice", "Liddell", .hashed "pw"⟩ ∧
    comparePassword ⟨1, "alice", "Alice", "Liddell", .hashed "pw"⟩ "x" = false ∧
    authorize tok0 db1 ⟨"bob", "x"⟩ = .error ⟨400, "Bad Request", "User not found."⟩ ∧
    authorize tok0 db1 ⟨"alice", "x"⟩ = .error ⟨400, "Bad Request", "Incorrect password."⟩ ∧
    authorize tok0 db1 ⟨"bob", "x"⟩ ≠ authorize tok0 db1 ⟨"alice", "x"⟩ := by
  refine ⟨by decide, by decide, by decide, by decide, by decide, by decide⟩

/-- C1 (amended): both failure cases of `verify` surface at the HTTP boundary
with the same response shape and error class (status 400, "Bad Request"),
but the message text differs: "User not found." when the username is
unknown, "Incorrect password." when the username is known and the password
is wrong — so a caller can tell which failure occurred. -/
theorem C1_failures_same_class_distinct_messages
    (tok : Account → AuthTokenResult) (db : DB) (dtoU dtoP : AuthorizeDto)
    (u : Account)
    (h1 : db.accounts.find? (fun a => a.username == dtoU.username) = none)
    (h2 : db.accounts.find? (fun a => a.username == dtoP.username) = some u)
    (h3 : comparePassword u dtoP.password = false) :
    authorize tok db dtoU = .error ⟨400, "Bad Request", "User not found."⟩ ∧
    authorize tok db dtoP = .error ⟨400, "Bad Request", "Incorrect password."⟩ := by
  constructor
  · simp [authorize, verify, h1]
  · simp [authorize, verify, h2, h3]

/-- Witness for C1 (amended) at a concrete store and requests. -/
theorem C1_witness :
    authorize tok0 db1 ⟨"bob", "x"⟩ = .error ⟨400, "Bad Request", "User not found."⟩ ∧
    authorize tok0 db1 ⟨"alice", "x"⟩ = .error ⟨400, "Bad Request", "Incorrect password."⟩ :=
  C1_failures_same_class_distinct_messages tok0 db1 ⟨"bob", "x"⟩ ⟨"alice", "x"⟩
    ⟨1, "alice", "Alice", "Liddell", .hashed "pw"⟩ (by decide) (by decide) (by decide)

/-- C2: calling `updateProfile` on an existing account with username,
firstName and lastName all equal to the stored values returns
`updated = false` and leaves the store (accounts and write counter)
exactly as it was: no write is issued. -/
theorem C2_updateProfile_identical_is_noop
    (db : DB) (id : Nat) (dto : UpdateProfileDto) (user : Account)
    (hf : db.accounts.find? (fun u => u.id == id) = some user)
    (h1 : dto.username = user.username)
    (h2 : dto.firstName = user.firstName)
    (h3 : dto.lastName = user.lastName) :
    updateProfile db id dto = (.ok ⟨false⟩, db) :=
  updateProfile_clean db id dto user hf h1 h2 h3

/-- Witness for C2 on the concrete store `db1`. -/
theorem C2_witness :
    updateProfile db1 1 ⟨"alice", "Alice", "Liddell"⟩ = (.ok ⟨false⟩, db1) :=
  C2_updateProfile_identical_is_noop db1 1 ⟨"alice", "Alice", "Liddell"⟩
    ⟨1, "alice", "Alice", "Liddell", .hashed "pw"⟩ (by decide) rfl rfl rfl

/-- C3, as stated, is false: a call on an existing account whose three
fields are assigned their current values reports `updated = false` and
issues no write (mongoose marks a path modified only when the assigned
value differs from the stored one). -/
theorem C3_counterexample :
    db1.accounts.find? (fun u => u.id == 1) =
      some ⟨1, "alice", "Alice", "Liddell", .hashed "pw"⟩ ∧
    (updateProfile db1 1 ⟨"alice", "Alice", "Liddell"⟩).1 = .ok ⟨false⟩ ∧
    (updateProfile db1 1 ⟨"alice", "Alice", "Liddell"⟩).2.writes = db1.writes := by
  refine ⟨by decide, by decide, by decide⟩

/-- C3 (amended): the dirty-check compares each assigned field with the
stored value; an assignment equal to the stored value does not count as a
modification.  On an existing account, `updateProfile` reports
`updated = true` and issues a persistent write exactly when at least one
of the three fields differs from the stored value; otherwise it reports
`updated = false` and issues no write. -/
theorem C3_dirty_check_compares_values
    (db : DB) (id : Nat) (dto : UpdateProfileDto) (user : Account)
    (hf : db.accounts.find? (fun u => u.id == id) = some user) :
    (dto.username = user.username ∧ dto.firstName = user.firstName ∧
        dto.lastName = user.lastName →
      updateProfile db id dto = (.ok ⟨false⟩, db)) ∧
    (¬(dto.username = user.username ∧ dto.firstName = user.firstName ∧
        dto.lastName = user.lastName) →
      (updateProfile db id dto).1 = .ok ⟨true⟩ ∧
      (updateProfile db id dto).2.writes = db.writes + 1) := by
  constructor
  · intro h
    exact updateProfile_clean db id dto user hf h.1 h.2.1 h.2.2
  · intro h
    rw [updateProfile_dirty db id dto user hf h]
    exact ⟨rfl, rfl⟩

/-- Witness for C3 (amended): a differing username is reported and counted
as one write. -/
theorem C3_witness :
    (updateProfile db1 1 ⟨"alice2", "Alice", "Liddell"⟩).1 = .ok ⟨true⟩ ∧
    (updateProfile db1 1 ⟨"alice2", "Alice", "Liddell"⟩).2.writes = db1.writes + 1 :=
  (C3_dirty_check_compares_values db1 1 ⟨"alice2", "Alice", "Liddell"⟩
    ⟨1, "alice", "Alice", "Liddell", .hashed "pw"⟩ (by decide)).2 (by decide)

/-- C4: `changePassword` on an existing account with a current password that
does not match the stored hash fails with the InvalidCredentials error
("Incorrect password.") and returns the store exactly as it was: the stored
hash, the rest of the account, and the write counter are unchanged. -/
theorem C4_changePassword_wrong_password_no_write
    (db : DB) (id : Nat) (dto : ChangePasswordDto) (user : Account)
    (hf : db.accounts.find? (fun u => u.id == id) = some user)
    (hc : comparePassword user dto.password = false) :
    changePassword db id dto = (.error "Incorrect password.", db) := by
  simp [changePassword, findByUserId, hf, hc]

/-- Witness for C4 on the concrete store `db1`. -/
theorem C4_witness :
    changePassword db1 1 ⟨"wrong", "npw"⟩ = (.error "Incorrect password.", db1) :=
  C4_changePassword_wrong_password_no_write db1 1 ⟨"wrong", "npw"⟩
    ⟨1, "alice", "Alice", "Liddell", .hashed "pw"⟩ (by decide) (by decide)

/-- C5: `changePassword` on an existing account with the correct current
password returns `updated = true`, issues exactly one persistent write with
no dirty-check, and afterwards the account stored under the identifier
carries the salted hash of `newPassword`. -/
theorem C5_changePassword_correct_always_writes
    (db : DB) (id : Nat) (dto : ChangePasswordDto) (user : Account)
    (hf : db.accounts.find? (fun u => u.id == id) = some user)
    (hc : comparePassword user dto.password = true) :
    (changePassword db id dto).1 = .ok ⟨true⟩ ∧
    (changePassword db id dto).2.writes = db.writes + 1 ∧
    (changePassword db id dto).2.accounts.find? (fun u => u.id == id) =
      some { user with password := .hashed dto.newPassword } := by
  have he : changePassword db id dto =
      (.ok ⟨true⟩, saveUser db { user with password := .plain dto.newPassword }) := by
    simp [changePassword, findByUserId, hf, hc]
  rw [he]
  refine ⟨rfl, rfl, ?_⟩
  exact find?_saveUser db id user { user with password := .plain dto.newPassword } hf rfl

/-- Witness for C5 on the concrete store `db1`. -/
theorem C5_witness :
    (changePassword db1 1 ⟨"pw", "npw"⟩).1 = .ok ⟨true⟩ ∧
    (changePassword db1 1 ⟨"pw", "npw"⟩).2.writes = db1.writes + 1 ∧
    (changePassword db1 1 ⟨"pw", "npw"⟩).2.accounts.find? (fun u => u.id == 1) =
      some ⟨1, "alice", "Alice", "Liddell", .hashed "npw"⟩ :=
  C5_changePassword_correct_always_writes db1 1 ⟨"pw", "npw"⟩
    ⟨1, "alice", "Alice", "Liddell", .hashed "pw"⟩ (by decide) (by decide)

/-- C6: on every store state reachable from the empty store by the in-scope
operations (create, updateProfile, changePassword), every account's
password field holds a salted hash and never the plaintext password. -/
theorem C6_passwords_always_hashed (ops : List Op) : allHashed (run ops) :=
  allHashed_foldl ops initDB (by intro a ha; simp [initDB] at ha)

/-- C7: `verify` never writes — the store it returns is the one it was
given, on every input — and whenever an account matches the username and
its stored hash matches the provided password, `verify` succeeds and
returns exactly that stored account, unmodified, with the store untouched;
conversely, any successful `verify` returns the stored account matched by
the username, whose stored hash matches the provided password. -/
theorem C7_verify_read_only (db : DB) (dto : AuthorizeDto) :
    (verify db dto).2 = db ∧
    (∀ u, db.accounts.find? (fun a => a.username == dto.username) = some u →
      comparePassword u dto.password = true →
      verify db dto = (.ok u, db)) ∧
    (∀ u, (verify db dto).1 = .ok u →
      db.accounts.find? (fun a => a.username == dto.username) = some u ∧
      u ∈ db.accounts ∧ u.username = dto.username ∧
      comparePassword u dto.password = true) := by
  refine ⟨?_, ?_, ?_⟩
  · unfold verify
    cases hfe : db.accounts.find? (fun a => a.username == dto.username) with
    | none => rfl
    | some user => by_cases hc : comparePassword user dto.password = false <;> simp [hc]
  · intro u hfind hcomp
    simp [verify, hfind, hcomp]
  · intro u hu
    unfold verify at hu
    cases hfe : db.accounts.find? (fun a => a.username == dto.username) with
    | none => rw [hfe] at hu; simp at hu
    | some user =>
      rw [hfe] at hu
      by_cases hc : comparePassword user dto.password = false
      · simp [hc] at hu
      · simp only [hc, if_neg, ite_false] at hu
        have huu : user = u := by injection hu
        subst huu
        refine ⟨rfl, List.mem_of_find?_eq_some hfe, ?_, ?_⟩
        · have := List.find?_some hfe
          simpa using this
        · cases hx : comparePassword user dto.password
          · exact absurd hx hc
          · rfl

/-- Witness for C7 on the concrete store `db1`: correct credentials return
alice's stored account with the store unchanged, and that account is in
the store. -/
theorem C7_witness :
    verify db1 ⟨"alice", "pw"⟩ =
      (.ok ⟨1, "alice", "Alice", "Liddell", .hashed "pw"⟩, db1) ∧
    (⟨1, "alice", "Alice", "Liddell", .hashed "pw"⟩ : Account) ∈ db1.accounts := by
  refine ⟨(C7_verify_read_only db1 ⟨"alice", "pw"⟩).2.1
    ⟨1, "alice", "Alice", "Liddell", .hashed "pw"⟩ (by decide) (by decide), ?_⟩
  exact ((C7_verify_read_only db1 ⟨"alice", "pw"⟩).2.2
    ⟨1, "alice", "Alice", "Liddell", .hashed "pw"⟩ (by decide)).2.1

/-- C8: `checkIfExists` issues no write and never fails: it always returns a
result, whose `existing` field is true exactly when some stored account
carries that username. -/
theorem C8_checkIfExists_never_fails (db : DB) (username : String) :
    (checkIfExists db username).2 = db ∧
    ∃ r, (checkIfExists db username).1 = .ok r ∧
      (r.existing = true ↔ ∃ a ∈ db.accounts, a.username = username) := by
  refine ⟨rfl, ⟨_, rfl, ?_⟩⟩
  simp [List.find?_isSome]

/-- C9: a `create` call whose username collides with a stored account always
fails with "User already exists." and returns the store exactly as it was:
the pre-existing account is unmodified and no write is issued. -/
theorem C9_create_colliding_username_fails
    (db : DB) (dto : CreateDto) (a : Account)
    (ha : a ∈ db.accounts) (hu : a.username = dto.username) :
    create db dto = (.error "User already exists.", db) := by
  have hany : db.accounts.any (fun u => u.username == dto.username) = true :=
    List.any_eq_true.mpr ⟨a, ha, by simp [hu]⟩
  simp [create, saveNew, createCatch, hany]

/-- Witness for C9 on the concrete store `db1`. -/
theorem C9_witness :
    create db1 ⟨"alice", "x", "Foo", "Bar"⟩ = (.error "User already exists.", db1) :=
  C9_create_colliding_username_fails db1 ⟨"alice", "x", "Foo", "Bar"⟩
    ⟨1, "alice", "Alice", "Liddell", .hashed "pw"⟩ (by decide) rfl

/-- C10: the blanket catch of `create` maps every failure of the underlying
save — whatever its cause — to the single error "User already exists.",
passes a successful save through unchanged, and in particular `create`
reports "User already exists." whenever the store insert fails. -/
theorem C10_already_exists_iff_save_failed
    (db : DB) (attempt : Except StoreErr (Account × DB)) (dto : CreateDto) :
    (∀ e, attempt = .error e →
      createCatch db attempt = (.error "User already exists.", db)) ∧
    (∀ u db2, attempt = .ok (u, db2) → createCatch db attempt = (.ok u, db2)) ∧
    (∀ e, saveNew db dto = .error e →
      create db dto = (.error "User already exists.", db)) := by
  refine ⟨?_, ?_, ?_⟩
  · intro e he
    rw [he]
    rfl
  · intro u db2 he
    rw [he]
    rfl
  · intro e he
    show createCatch db (saveNew db dto) = _
    rw [he]
    rfl

/-- Witness for C10: a save failure with a non-collision cause is still
reported as "User already exists.", and so is a concrete colliding insert. -/
theorem C10_witness :
    createCatch db1 (.error (.otherFailure "connection lost")) =
      (.error "User already exists.", db1) ∧
    create db1 ⟨"alice", "x", "Foo", "Bar"⟩ = (.error "User already exists.", db1) := by
  constructor
  · exact (C10_already_exists_iff_save_failed db1 (.error (.otherFailure "connection lost"))
      ⟨"alice", "x", "Foo", "Bar"⟩).1 (.otherFailure "connection lost") rfl
  · exact (C10_already_exists_iff_save_failed db1 (.error (.otherFailure "connection lost"))
      ⟨"alice", "x", "Foo", "Bar"⟩).2.2 .duplicateKey (by decide)

end UserMicroservice
